import Mathlib

/-!
Shallow embedding of the violation-detection and risk-scoring engine of the
bharatHireSecure proctoring server.

Two variants of the engine exist in the repository:
* the extended server `src/bhararhire/app/server.mjs` (behavioral/biometric
  analysis, categorised signature catalog, AI risk scoring) — embedded in
  namespace `BharatHire`;
* the legacy server `src/unnamed/part_000` — its process analysis is embedded
  in namespace `BharatHire.Legacy`.

Effectful collaborators (process listing, `netstat` output, timestamps,
logging, the session map) are passed in as explicit parameters or dropped when
no analysed value depends on them; all engine logic is transcribed directly
from the JavaScript source.  JavaScript numbers are modelled as `ℚ`, process
fields that may be `undefined` as `Option`.
-/

namespace BharatHire

/-! ### String helpers (JS `String.prototype.includes`, `toLowerCase`) -/

/-- Substring containment on character lists: `containsSub n l` is true iff
`n` occurs contiguously inside `l` (JS `l.includes(n)`). -/
def containsSub (n : List Char) : List Char → Bool
  | [] => n.isPrefixOf []
  | c :: t => n.isPrefixOf (c :: t) || containsSub n t

/-- JS `h.includes(n)` (case-sensitive substring test). -/
def strIncludes (h n : String) : Bool :=
  containsSub n.toList h.toList

/-- Accumulator pass of `jsSplitNewline`. -/
def splitNlAux : List Char → List Char → List String
  | [], cur => [String.mk cur.reverse]
  | c :: t, cur =>
    if c = '\n' then String.mk cur.reverse :: splitNlAux t []
    else splitNlAux t (c :: cur)

/-- JS `stdout.split('\n')`. -/
def jsSplitNewline (s : String) : List String :=
  splitNlAux s.toList []

/-- The whitespace class stripped by JS `String.prototype.trim` (ASCII part,
which covers `netstat` output). -/
def isJsSpace (c : Char) : Bool :=
  c = ' ' || c = '\t' || c = '\n' || c = '\r' || c = '\x0b' || c = '\x0c'

/-- JS `line.trim()`. -/
def jsTrim (s : String) : String :=
  String.mk ((s.toList.dropWhile isJsSpace).reverse.dropWhile isJsSpace).reverse

/-- JS `s.toLowerCase()` (ASCII case fold, which covers the catalogs). -/
def jsToLower (s : String) : String :=
  String.mk (s.toList.map Char.toLower)

/-! ### The regex `\b(?:[0-9]{1,3}\.){3}[0-9]{1,3}\b` used by the network
scanner (`conn.match(...)`).  A word character is `[A-Za-z0-9_]`; because the
digit groups are maximal runs bounded by a dot or a word boundary, the
backtracking regex matches iff the deterministic scan below succeeds. -/

def isWordChar (c : Char) : Bool :=
  c.isAlphanum || c = '_'

/-- Length of the maximal leading digit run. -/
def countLeadingDigits : List Char → Nat
  | [] => 0
  | c :: t => if c.isDigit then countLeadingDigits t + 1 else 0

/-- Match `[0-9]{1,3}\.` at the head, returning the rest. -/
def octetDot (l : List Char) : Option (List Char) :=
  let r := countLeadingDigits l
  if 1 ≤ r ∧ r ≤ 3 ∧ l.get? r = some '.' then some (l.drop (r + 1)) else none

/-- Match the final `[0-9]{1,3}\b`. -/
def finalOctet (l : List Char) : Bool :=
  let r := countLeadingDigits l
  decide (1 ≤ r) && decide (r ≤ 3) &&
    (match l.drop r with
     | [] => true
     | c :: _ => !isWordChar c)

/-- Match `(?:[0-9]{1,3}\.){3}[0-9]{1,3}\b` at the head of `l`. -/
def ipv4At (l : List Char) : Bool :=
  match octetDot l with
  | none => false
  | some l1 =>
    match octetDot l1 with
    | none => false
    | some l2 =>
      match octetDot l2 with
      | none => false
      | some l3 => finalOctet l3

/-- Scan for a match of the dotted-quad pattern anywhere in the list, with the
leading word boundary tracked through `prevWord`. -/
def hasIPv4Aux : Bool → List Char → Bool
  | _, [] => false
  | prevWord, c :: t => (!prevWord && ipv4At (c :: t)) || hasIPv4Aux (isWordChar c) t

/-- True iff the connection line contains an IPv4-style dotted quad
(`conn.match(/\b(?:[0-9]{1,3}\.){3}[0-9]{1,3}\b/g)` is non-null). -/
def hasIPv4 (s : String) : Bool :=
  hasIPv4Aux false s.toList

/-- JS `x || y` on numbers: `y` when `x` is falsy (`0`), else `x`. -/
def qOr (a b : ℚ) : ℚ :=
  if a = 0 then b else a

/-! ### Severity -/

/-- Finding severity, the closed set used by every signature catalog. -/
inductive Sev
  | LOW
  | MEDIUM
  | HIGH
  | CRITICAL
deriving DecidableEq, Repr

/-- Report-level severity: the finding severities plus the `CLEAN` sentinel. -/
inductive RSev
  | CLEAN
  | lvl (s : Sev)
deriving DecidableEq, Repr

def Sev.rank : Sev → Nat
  | .LOW => 1
  | .MEDIUM => 2
  | .HIGH => 3
  | .CRITICAL => 4

def RSev.rank : RSev → Nat
  | .CLEAN => 0
  | .lvl s => s.rank

/-- Maximum of two report severities in the order CLEAN < LOW < MEDIUM < HIGH < CRITICAL. -/
def rmax (a b : RSev) : RSev :=
  if a.rank < b.rank then b else a

/-! ### Data model -/

/-- A sampled process observation (`ps-list` row); fields may be absent. -/
structure Proc where
  name : Option String
  pid : Option Nat
  cmd : Option String
  ppid : Option Nat
  cpu : Option ℚ
  memory : Option ℚ
  starttime : Option String
deriving DecidableEq, Repr

/-- Entry of the `unauthorizedApps` catalog (extended server). -/
structure ProcSig where
  name : String
  description : String
  severity : Sev
  category : String
deriving DecidableEq, Repr

/-- Entry of the `suspiciousPatterns` catalog (extended server). -/
structure CmdPattern where
  pattern : String
  severity : Sev
  description : String
deriving DecidableEq, Repr

/-- Entry of the `suspiciousDomains` catalog (extended server). -/
structure DomainSig where
  domain : String
  category : String
  severity : Sev
deriving DecidableEq, Repr

/-- The `unauthorizedApps` catalog of `server.mjs`; two groups of entries have
their severity downgraded when `NODE_ENV` is `development` (`isDev`). -/
def unauthorizedApps (isDev : Bool) : List ProcSig := [
  ⟨"python.exe", "Python interpreter", .HIGH, "development"⟩,
  ⟨"python3.exe", "Python 3 interpreter", .HIGH, "development"⟩,
  ⟨"python", "Python (Linux/Mac)", .HIGH, "development"⟩,
  ⟨"python3", "Python 3 (Linux/Mac)", .HIGH, "development"⟩,
  ⟨"node.exe", "Node.js runtime", if isDev then .LOW else .HIGH, "development"⟩,
  ⟨"node", "Node.js (Linux/Mac)", if isDev then .LOW else .HIGH, "development"⟩,
  ⟨"npm.exe", "Node Package Manager", .MEDIUM, "development"⟩,
  ⟨"npm", "NPM (Linux/Mac)", .MEDIUM, "development"⟩,
  ⟨"pip.exe", "Python Package Installer", .MEDIUM, "development"⟩,
  ⟨"pip", "Python Package Installer", .MEDIUM, "development"⟩,
  ⟨"chatgpt.exe", "ChatGPT Desktop App", .CRITICAL, "ai_cheating"⟩,
  ⟨"claude.exe", "Claude Desktop App", .CRITICAL, "ai_cheating"⟩,
  ⟨"copilot.exe", "GitHub Copilot", .CRITICAL, "ai_cheating"⟩,
  ⟨"bard.exe", "Google Bard", .CRITICAL, "ai_cheating"⟩,
  ⟨"electron.exe", "Electron application (possible cheating app)", .CRITICAL, "cheating"⟩,
  ⟨"electron", "Electron (Linux/Mac)", .CRITICAL, "cheating"⟩,
  ⟨"examsoft.exe", "ExamSoft (unauthorized)", .CRITICAL, "cheating"⟩,
  ⟨"proctorio.exe", "Proctorio (unauthorized)", .CRITICAL, "cheating"⟩,
  ⟨"code.exe", "Visual Studio Code", .HIGH, "development"⟩,
  ⟨"code", "VS Code (Linux/Mac)", .HIGH, "development"⟩,
  ⟨"notepad++.exe", "Notepad++", .MEDIUM, "development"⟩,
  ⟨"sublime_text.exe", "Sublime Text", .MEDIUM, "development"⟩,
  ⟨"atom.exe", "Atom Editor", .MEDIUM, "development"⟩,
  ⟨"webstorm.exe", "WebStorm IDE", .HIGH, "development"⟩,
  ⟨"pycharm.exe", "PyCharm IDE", .HIGH, "development"⟩,
  ⟨"intellij.exe", "IntelliJ IDEA", .HIGH, "development"⟩,
  ⟨"eclipse.exe", "Eclipse IDE", .HIGH, "development"⟩,
  ⟨"cmd.exe", "Command Prompt", if isDev then .LOW else .MEDIUM, "system"⟩,
  ⟨"powershell.exe", "PowerShell", if isDev then .LOW else .MEDIUM, "system"⟩,
  ⟨"bash", "Bash Shell", if isDev then .LOW else .MEDIUM, "system"⟩,
  ⟨"zsh", "Zsh Shell", if isDev then .LOW else .MEDIUM, "system"⟩,
  ⟨"terminal", "Terminal", if isDev then .LOW else .MEDIUM, "system"⟩,
  ⟨"iterm2", "iTerm2", if isDev then .LOW else .MEDIUM, "system"⟩,
  ⟨"teamviewer.exe", "TeamViewer", .CRITICAL, "remote_access"⟩,
  ⟨"anydesk.exe", "AnyDesk", .CRITICAL, "remote_access"⟩,
  ⟨"chrome_remote_desktop", "Chrome Remote Desktop", .CRITICAL, "remote_access"⟩,
  ⟨"vnc", "VNC Viewer", .CRITICAL, "remote_access"⟩,
  ⟨"rdp", "Remote Desktop Protocol", .CRITICAL, "remote_access"⟩,
  ⟨"discord.exe", "Discord", .HIGH, "communication"⟩,
  ⟨"slack.exe", "Slack", .HIGH, "communication"⟩,
  ⟨"skype.exe", "Skype", .HIGH, "communication"⟩,
  ⟨"telegram.exe", "Telegram", .HIGH, "communication"⟩,
  ⟨"whatsapp.exe", "WhatsApp", .HIGH, "communication"⟩,
  ⟨"zoom.exe", "Zoom (unauthorized)", .HIGH, "communication"⟩,
  ⟨"teams.exe", "Microsoft Teams (unauthorized)", .HIGH, "communication"⟩,
  ⟨"obs64.exe", "OBS Studio", .HIGH, "recording"⟩,
  ⟨"obs32.exe", "OBS Studio (32-bit)", .HIGH, "recording"⟩,
  ⟨"bandicam.exe", "Bandicam", .HIGH, "recording"⟩,
  ⟨"camtasia.exe", "Camtasia", .HIGH, "recording"⟩,
  ⟨"fraps.exe", "Fraps", .HIGH, "recording"⟩,
  ⟨"vmware.exe", "VMware", .CRITICAL, "virtualization"⟩,
  ⟨"virtualbox.exe", "VirtualBox", .CRITICAL, "virtualization"⟩,
  ⟨"vmplayer.exe", "VMware Player", .CRITICAL, "virtualization"⟩,
  ⟨"qemu.exe", "QEMU", .CRITICAL, "virtualization"⟩,
  ⟨"chrome.exe", "Google Chrome", .LOW, "browser"⟩,
  ⟨"firefox.exe", "Mozilla Firefox", .LOW, "browser"⟩,
  ⟨"msedge.exe", "Microsoft Edge", .LOW, "browser"⟩,
  ⟨"msedgewebview2.exe", "Microsoft Edge WebView2", .LOW, "browser"⟩,
  ⟨"safari", "Safari", .LOW, "browser"⟩,
  ⟨"opera.exe", "Opera Browser", .LOW, "browser"⟩,
  ⟨"bluestacks.exe", "BlueStacks Android Emulator", .HIGH, "emulation"⟩,
  ⟨"noxplayer.exe", "Nox Player", .HIGH, "emulation"⟩,
  ⟨"ldplayer.exe", "LDPlayer", .HIGH, "emulation"⟩,
  ⟨"procmon.exe", "Process Monitor", .MEDIUM, "monitoring"⟩,
  ⟨"procexp.exe", "Process Explorer", .MEDIUM, "monitoring"⟩,
  ⟨"wireshark.exe", "Wireshark", .HIGH, "monitoring"⟩,
  ⟨"fiddler.exe", "Fiddler", .HIGH, "monitoring"⟩]

/-- The `suspiciousPatterns` catalog of `server.mjs`. -/
def suspiciousPatterns : List CmdPattern := [
  ⟨"main.js", .CRITICAL, "Potential cheating application main file"⟩,
  ⟨"cheating", .CRITICAL, "Cheating-related keyword"⟩,
  ⟨"cheat", .CRITICAL, "Cheat-related keyword"⟩,
  ⟨"hack", .HIGH, "Hack-related keyword"⟩,
  ⟨"exploit", .HIGH, "Exploit-related keyword"⟩,
  ⟨"screenshot", .HIGH, "Screenshot functionality"⟩,
  ⟨"screen-capture", .HIGH, "Screen capture functionality"⟩,
  ⟨"keylogger", .CRITICAL, "Keylogger functionality"⟩,
  ⟨"automation", .HIGH, "Automation tools"⟩,
  ⟨"selenium", .HIGH, "Selenium automation"⟩,
  ⟨"puppeteer", .HIGH, "Puppeteer automation"⟩,
  ⟨"playwright", .HIGH, "Playwright automation"⟩,
  ⟨"cypress", .HIGH, "Cypress testing framework"⟩,
  ⟨"remote", .HIGH, "Remote access functionality"⟩,
  ⟨"proxy", .MEDIUM, "Proxy functionality"⟩,
  ⟨"tunnel", .HIGH, "Tunneling functionality"⟩,
  ⟨"ngrok", .HIGH, "Ngrok tunneling service"⟩,
  ⟨"ssh", .MEDIUM, "SSH connection"⟩,
  ⟨"telnet", .MEDIUM, "Telnet connection"⟩,
  ⟨"python -c", .HIGH, "Python inline code execution"⟩,
  ⟨"node -e", .HIGH, "Node.js inline code execution"⟩,
  ⟨"eval(", .HIGH, "Code evaluation function"⟩,
  ⟨"exec(", .HIGH, "Code execution function"⟩,
  ⟨"system(", .HIGH, "System command execution"⟩,
  ⟨"shell_exec", .HIGH, "Shell command execution"⟩,
  ⟨"openai", .CRITICAL, "OpenAI API usage"⟩,
  ⟨"chatgpt", .CRITICAL, "ChatGPT usage"⟩,
  ⟨"claude", .CRITICAL, "Claude AI usage"⟩,
  ⟨"bard", .CRITICAL, "Google Bard usage"⟩,
  ⟨"copilot", .CRITICAL, "GitHub Copilot usage"⟩,
  ⟨"tensorflow", .HIGH, "TensorFlow ML framework"⟩,
  ⟨"pytorch", .HIGH, "PyTorch ML framework"⟩,
  ⟨"debugger", .MEDIUM, "Debugger usage"⟩,
  ⟨"breakpoint", .MEDIUM, "Breakpoint usage"⟩,
  ⟨"inspect", .MEDIUM, "Code inspection"⟩,
  ⟨"devtools", .HIGH, "Developer tools"⟩]

/-- The `suspiciousDomains` catalog of `server.mjs`. -/
def suspiciousDomains : List DomainSig := [
  ⟨"chatgpt.com", "ai", .CRITICAL⟩,
  ⟨"openai.com", "ai", .CRITICAL⟩,
  ⟨"claude.ai", "ai", .CRITICAL⟩,
  ⟨"anthropic.com", "ai", .CRITICAL⟩,
  ⟨"bard.google.com", "ai", .CRITICAL⟩,
  ⟨"copilot.microsoft.com", "ai", .CRITICAL⟩,
  ⟨"character.ai", "ai", .CRITICAL⟩,
  ⟨"huggingface.co", "ai", .HIGH⟩,
  ⟨"stackoverflow.com", "development", .HIGH⟩,
  ⟨"github.com", "development", .HIGH⟩,
  ⟨"gitlab.com", "development", .HIGH⟩,
  ⟨"bitbucket.org", "development", .HIGH⟩,
  ⟨"repl.it", "development", .HIGH⟩,
  ⟨"codepen.io", "development", .HIGH⟩,
  ⟨"jsfiddle.net", "development", .HIGH⟩,
  ⟨"codesandbox.io", "development", .HIGH⟩,
  ⟨"glitch.com", "development", .HIGH⟩,
  ⟨"chegg.com", "cheating", .CRITICAL⟩,
  ⟨"coursehero.com", "cheating", .CRITICAL⟩,
  ⟨"studyblue.com", "cheating", .HIGH⟩,
  ⟨"quizlet.com", "cheating", .HIGH⟩,
  ⟨"brainly.com", "cheating", .HIGH⟩,
  ⟨"discord.com", "communication", .HIGH⟩,
  ⟨"slack.com", "communication", .HIGH⟩,
  ⟨"telegram.org", "communication", .HIGH⟩,
  ⟨"whatsapp.com", "communication", .HIGH⟩,
  ⟨"zoom.us", "communication", .MEDIUM⟩,
  ⟨"teamviewer.com", "remote_access", .CRITICAL⟩,
  ⟨"anydesk.com", "remote_access", .CRITICAL⟩,
  ⟨"chrome.google.com/webstore", "remote_access", .HIGH⟩]

/-! ### Network Threat Scanner (`checkNetworkConnections`, server.mjs) -/

/-- One detected suspicious connection (domain tagged with category/severity). -/
structure DomainHit where
  domain : String
  category : String
  severity : Sev
deriving DecidableEq, Repr

structure ConnectionStats where
  total : Nat
  external : Nat
  suspicious : Nat
deriving DecidableEq, Repr

structure NetworkCheck where
  suspiciousConnections : List DomainHit
  connectionStats : ConnectionStats
  error : Option String
deriving DecidableEq, Repr

/-- The body of `connections.some(conn => ...)`: a connection line counts as a
hit for a domain only when it contains an IPv4-looking dotted quad, and then
the match is case-insensitive substring containment. -/
def connMatchesDomain (conn : String) (domain : String) : Bool :=
  if hasIPv4 conn then strIncludes (jsToLower conn) (jsToLower domain) else false

/-- The `for (const domain of suspiciousDomains)` loop: collect the matched
domains in catalog order and count them. -/
def scanDomains (connections : List String) : List DomainHit × Nat :=
  suspiciousDomains.foldl
    (fun (acc : List DomainHit × Nat) d =>
      if connections.any (fun conn => connMatchesDomain conn d.domain) then
        (acc.1 ++ [⟨d.domain, d.category, d.severity⟩], acc.2 + 1)
      else acc)
    ([], 0)

/-- `checkNetworkConnections`: the `netstat` invocation is abstracted as an
`Except` carrying either the raw stdout or the thrown error message. -/
def checkNetworkConnections (netstatOut : Except String String) : NetworkCheck :=
  match netstatOut with
  | .error e =>
    { suspiciousConnections := [], connectionStats := ⟨0, 0, 0⟩, error := some e }
  | .ok stdout =>
    let connections := (jsSplitNewline stdout).filter (fun l => jsTrim l ≠ "")
    let scan := scanDomains connections
    let external := (connections.filter (fun conn =>
      !strIncludes conn "127.0.0.1" && !strIncludes conn "::1" &&
        !strIncludes conn "localhost")).length
    { suspiciousConnections := scan.1,
      connectionStats := ⟨connections.length, external, scan.2⟩,
      error := none }

/-! ### Behavioral Risk Analyzer (`analyzeBehaviorMetrics`, server.mjs) -/

/-- Client-reported behavior metrics. -/
structure BehaviorData where
  tabSwitches : ℚ
  rightClicks : ℚ
  idleTime : ℚ
  keystrokes : ℚ
deriving DecidableEq, Repr

/-- A behavioral or biometric anomaly finding. -/
structure Anomaly where
  type : String
  severity : Sev
  details : String
  confidence : ℚ
deriving DecidableEq, Repr

structure BehaviorAnalysis where
  riskScore : ℚ
  anomalies : List Anomaly
  patterns : List String
  recommendations : List String
deriving DecidableEq, Repr

/-- `analyzeBehaviorMetrics(behaviorData)`; absent input (`null`) yields the
zero analysis. -/
def analyzeBehaviorMetrics : Option BehaviorData → BehaviorAnalysis
  | none => ⟨0, [], [], []⟩
  | some b =>
    let rs : ℚ := 0
    let an : List Anomaly := []
    let (rs, an) :=
      if b.tabSwitches > 5 then
        (rs + b.tabSwitches * 2, an ++ [⟨"EXCESSIVE_TAB_SWITCHING",
          if b.tabSwitches > 10 then .HIGH else .MEDIUM,
          toString b.tabSwitches ++ " tab switches detected", 9/10⟩])
      else (rs, an)
    let (rs, an) :=
      if b.rightClicks > 3 then
        (rs + b.rightClicks * 3, an ++ [⟨"EXCESSIVE_RIGHT_CLICKS", .MEDIUM,
          toString b.rightClicks ++ " right-click attempts", 4/5⟩])
      else (rs, an)
    let (rs, an) :=
      if b.idleTime > 60000 then
        (rs + 10, an ++ [⟨"EXTENDED_IDLE_TIME", .MEDIUM,
          "Idle for " ++ toString (round (b.idleTime / 1000) : ℤ) ++ " seconds", 7/10⟩])
      else (rs, an)
    let keystrokeRate := b.keystrokes / 5
    let (rs, an) :=
      if keystrokeRate > 100 then
        (rs + 15, an ++ [⟨"UNUSUAL_KEYSTROKE_PATTERN", .HIGH,
          "Extremely high typing rate: " ++ toString keystrokeRate ++ " keys/5sec", 17/20⟩])
      else (rs, an)
    let recs : List String :=
      (if rs > 50 then ["Increase monitoring frequency", "Request additional verification"]
       else []) ++
      (if b.tabSwitches > 3 then ["Warn candidate about tab switching"] else [])
    ⟨rs, an, [], recs⟩

/-! ### Biometric Risk Analyzer (`analyzeBiometricData`, server.mjs) -/

structure BiometricData where
  faceDetected : Bool
  attentionScore : ℚ
deriving DecidableEq, Repr

structure BiometricAnalysis where
  riskScore : ℚ
  anomalies : List Anomaly
  attentionLevel : String
deriving DecidableEq, Repr

/-- `analyzeBiometricData(biometricData)`.  The source tests
`attentionScore < 70` first and `attentionScore < 50` only in the `else`
branch, so the `CRITICAL_ATTENTION_SCORE` branch is transcribed exactly as the
(unreachable) code has it. -/
def analyzeBiometricData : Option BiometricData → BiometricAnalysis
  | none => ⟨0, [], "NORMAL"⟩
  | some b =>
    let rs : ℚ := 0
    let an : List Anomaly := []
    let (rs, an) :=
      if !b.faceDetected then
        (rs + 30, an ++ [⟨"FACE_NOT_DETECTED", .HIGH,
          "Candidate face not visible in camera feed", 19/20⟩])
      else (rs, an)
    if b.attentionScore < 70 then
      ⟨rs + 20, an ++ [⟨"LOW_ATTENTION_SCORE", .MEDIUM,
        "Attention score: " ++ toString b.attentionScore ++ "%", 4/5⟩], "LOW"⟩
    else if b.attentionScore < 50 then
      ⟨rs + 40, an ++ [⟨"CRITICAL_ATTENTION_SCORE", .HIGH,
        "Critical attention score: " ++ toString b.attentionScore ++ "%", 9/10⟩], "CRITICAL"⟩
    else
      ⟨rs, an, "NORMAL"⟩

/-! ### Process Classifier (`analyzeProcesses`, server.mjs)

The `psList` call, `getSystemInfo` and the `netstat` output are effectful
collaborators; `analyzeProcesses` takes the process snapshot and the result of
`checkNetworkConnections` as parameters.  The `forEach` body becomes a fold
over an explicit scan state. -/

/-- One entry pushed onto `results.unauthorized`. -/
structure UnauthorizedEntry where
  name : String
  pid : Nat
  description : String
  cmd : String
  severity : Sev
  category : String
  ppid : Nat
  cpu : ℚ
  memory : ℚ
  startTime : String
  confidence : ℚ
  aiDetected : Bool
deriving DecidableEq, Repr

/-- One entry pushed onto `results.suspicious`. -/
structure SuspiciousEntry where
  name : String
  pid : Nat
  cmd : String
  reason : String
  severity : Sev
  confidence : ℚ
  aiDetected : Bool
deriving DecidableEq, Repr

structure BrowserAI where
  suspiciousMultipleTabs : Bool
  possibleCheating : Bool
deriving DecidableEq, Repr

/-- One entry pushed onto `results.browserInstances`. -/
structure BrowserInstance where
  browser : String
  count : Nat
  threat_level : Sev
  aiAnalysis : BrowserAI
deriving DecidableEq, Repr

/-- The `processPatterns` counter object. -/
structure PatternCounts where
  development : Nat
  communication : Nat
  cheating : Nat
  suspicious : Nat
deriving DecidableEq, Repr

structure AIAnalysis where
  riskScore : ℚ
  confidence : ℚ
  patterns : List (String × Nat)
deriving DecidableEq, Repr

/-- The value returned by `analyzeProcesses` (system info and timestamps
dropped: no analysed value depends on them). -/
structure Results where
  unauthorized : List UnauthorizedEntry
  suspicious : List SuspiciousEntry
  browserInstances : List BrowserInstance
  networkThreats : NetworkCheck
  processCount : Nat
  aiAnalysis : AIAnalysis
deriving DecidableEq, Repr

/-- The development-mode allow-list: skip the proctoring server's own node
process (`node`/`node.exe` whose command line mentions `server.mjs`). -/
def devSkip (isDev : Bool) (p : Proc) : Bool :=
  isDev &&
    (match p.name, p.cmd with
     | some n, some c =>
       ((jsToLower n) == "node.exe" || (jsToLower n) == "node") && strIncludes c "server.mjs"
     | _, _ => false)

/-- `unauthorizedApps.find(app => proc.name && proc.name.toLowerCase() === app.name.toLowerCase())`. -/
def catalogMatch (isDev : Bool) (p : Proc) : Option ProcSig :=
  match p.name with
  | none => none
  | some n => (unauthorizedApps isDev).find? (fun a => (jsToLower n) == (jsToLower a.name))

/-- `suspiciousPatterns.find(pattern => cmd.toLowerCase().includes(pattern.pattern.toLowerCase()))`. -/
def cmdPatternMatch (cmd : String) : Option CmdPattern :=
  suspiciousPatterns.find? (fun pt => strIncludes (jsToLower cmd) (jsToLower pt.pattern))

/-- The unauthorized-app entry built for a matched process: base description,
severity and confidence from the catalog entry, then the Electron
`main.js`/`.asar` special cases, then the command-line-pattern override. -/
def mkUnauthEntry (p : Proc) (app : ProcSig) : UnauthorizedEntry :=
  let base : String × Sev × ℚ := (app.description, app.severity, (4/5 : ℚ))
  let adj : String × Sev × ℚ :=
    if (match p.name with
        | some n => strIncludes (jsToLower n) "electron"
        | none => false) then
      match p.cmd with
      | some c =>
        if strIncludes c "main.js" then
          ("CRITICAL: AI-detected cheating application (main.js pattern)", Sev.CRITICAL, (19/20 : ℚ))
        else if strIncludes c ".asar" then
          ("AI-detected: Electron app with packed resources (suspicious)", Sev.HIGH, (17/20 : ℚ))
        else base
      | none => base
    else base
  let fin : String × Sev × ℚ :=
    match p.cmd with
    | none => adj
    | some c =>
      match cmdPatternMatch c with
      | none => adj
      | some pat =>
        (adj.1 ++ " [AI-DETECTED: " ++ pat.description ++ "]", pat.severity,
          min (49/50 : ℚ) (adj.2.2 + 1/10))
  { name := p.name.getD "unknown"
    pid := p.pid.getD 0
    description := fin.1
    cmd := p.cmd.getD "No command-line details available"
    severity := fin.2.1
    category := app.category
    ppid := p.ppid.getD 0
    cpu := p.cpu.getD 0
    memory := p.memory.getD 0
    startTime := p.starttime.getD "unknown"
    confidence := fin.2.2
    aiDetected := fin.2.2 > 9/10 }

/-- `if (unauthorizedApp.category in processPatterns) processPatterns[category]++`. -/
def bumpPattern (pc : PatternCounts) (cat : String) : PatternCounts :=
  if cat = "development" then { pc with development := pc.development + 1 }
  else if cat = "communication" then { pc with communication := pc.communication + 1 }
  else if cat = "cheating" then { pc with cheating := pc.cheating + 1 }
  else if cat = "suspicious" then { pc with suspicious := pc.suspicious + 1 }
  else pc

/-- Increment the per-browser counter object (insertion-ordered map). -/
def bumpCount : List (String × Nat) → String → List (String × Nat)
  | [], k => [(k, 1)]
  | (a, n) :: t, k => if a = k then (a, n + 1) :: t else (a, n) :: bumpCount t k

/-- `proc.name` matches the browser name test of the instance counter. -/
def isBrowserName (n : String) : Bool :=
  strIncludes (jsToLower n) "chrome" || strIncludes (jsToLower n) "firefox" ||
    strIncludes (jsToLower n) "safari" || strIncludes (jsToLower n) "msedge" ||
    strIncludes (jsToLower n) "msedgewebview2"

/-- Mutable state threaded through the `processes.forEach` loop. -/
structure ScanState where
  unauthorized : List UnauthorizedEntry
  suspicious : List SuspiciousEntry
  browserCounts : List (String × Nat)
  patterns : PatternCounts
deriving DecidableEq, Repr

/-- One iteration of the `processes.forEach` body. -/
def scanStep (isDev : Bool) (st : ScanState) (p : Proc) : ScanState :=
  if devSkip isDev p then st
  else
    let app? := catalogMatch isDev p
    let st1 :=
      match app? with
      | none => st
      | some app =>
        { st with
          unauthorized := st.unauthorized ++ [mkUnauthEntry p app]
          patterns := bumpPattern st.patterns app.category }
    let st2 :=
      match p.name with
      | some n =>
        if isBrowserName n then
          { st1 with browserCounts := bumpCount st1.browserCounts (jsToLower n) }
        else st1
      | none => st1
    match p.cmd with
    | none => st2
    | some c =>
      match cmdPatternMatch c with
      | none => st2
      | some pat =>
        if app?.isNone then
          { st2 with
            suspicious := st2.suspicious ++
              [⟨p.name.getD "unknown", p.pid.getD 0, c, pat.description,
                pat.severity, 4/5, true⟩]
            patterns := { st2.patterns with suspicious := st2.patterns.suspicious + 1 } }
        else st2

/-- `analyzeProcesses` over a process snapshot and a network-scan result. -/
def analyzeProcesses (isDev : Bool) (procs : List Proc) (net : NetworkCheck) : Results :=
  let st := procs.foldl (scanStep isDev) ⟨[], [], [], ⟨0, 0, 0, 0⟩⟩
  let browserThreshold : Nat := if isDev then 20 else 8
  let browserInstances := st.browserCounts.filterMap (fun bc =>
    if bc.2 > browserThreshold then
      some ⟨bc.1, bc.2,
        (if bc.2 > browserThreshold + 10 then Sev.HIGH else Sev.MEDIUM),
        ⟨bc.2 > browserThreshold * 2, bc.2 > browserThreshold * 3⟩⟩
    else none)
  let net' := net
  let riskScore : ℚ :=
    (st.patterns.cheating * 40) + (st.patterns.development * 15) +
      (st.patterns.communication * 10) + (st.patterns.suspicious * 25) +
      (net'.suspiciousConnections.length * 20)
  let confidence : ℚ :=
    min (19/20) (3/5 + st.unauthorized.length * (1/20) + st.suspicious.length * (3/100))
  let patternsList :=
    ([("development", st.patterns.development), ("communication", st.patterns.communication),
      ("cheating", st.patterns.cheating), ("suspicious", st.patterns.suspicious)].filter
      (fun pc => pc.2 > 0))
  { unauthorized := st.unauthorized
    suspicious := st.suspicious
    browserInstances := browserInstances
    networkThreats := net'
    processCount := procs.length
    aiAnalysis := ⟨riskScore, confidence, patternsList⟩ }

/-! ### Violation Aggregator (`generateViolationReport`, server.mjs) -/

/-- A violation record in the report (timestamps dropped; heterogeneous extra
fields flattened: `category` is optional, `aiDetected` defaults to false where
the source object omits it). -/
structure Violation where
  type : String
  severity : Sev
  details : String
  evidence : String
  confidence : ℚ
  category : Option String
  aiDetected : Bool
deriving DecidableEq, Repr

structure Summary where
  totalViolations : Nat
  criticalViolations : Nat
  highViolations : Nat
  mediumViolations : Nat
  lowViolations : Nat
deriving DecidableEq, Repr

structure AIInsights where
  overallRiskScore : ℚ
  confidence : ℚ
  behaviorAnalysis : Option BehaviorAnalysis
  biometricAnalysis : Option BiometricAnalysis
  recommendations : List String
deriving DecidableEq, Repr

structure Report where
  severity : RSev
  violations : List Violation
  summary : Summary
  aiInsights : AIInsights
  sessionId : Option String
deriving DecidableEq, Repr

/-- `report.summary[severity.toLowerCase() + "Violations"]++` plus the total. -/
def bumpSummary (s : Summary) (sev : Sev) : Summary :=
  let s := { s with totalViolations := s.totalViolations + 1 }
  match sev with
  | .CRITICAL => { s with criticalViolations := s.criticalViolations + 1 }
  | .HIGH => { s with highViolations := s.highViolations + 1 }
  | .MEDIUM => { s with mediumViolations := s.mediumViolations + 1 }
  | .LOW => { s with lowViolations := s.lowViolations + 1 }

/-- Severity update of the unauthorized-application loop. -/
def upUnauth (r : RSev) (s : Sev) : RSev :=
  if s = .CRITICAL ∧ r ≠ .lvl .CRITICAL then .lvl .CRITICAL
  else if s = .HIGH ∧ r ≠ .lvl .CRITICAL then .lvl .HIGH
  else if s = .MEDIUM ∧ r ≠ .lvl .CRITICAL ∧ r ≠ .lvl .HIGH then .lvl .MEDIUM
  else r

/-- Severity update of the suspicious-activity loop. -/
def upSusp (r : RSev) (s : Sev) : RSev :=
  if s = .HIGH ∧ r ≠ .lvl .CRITICAL then .lvl .HIGH
  else if r ≠ .lvl .CRITICAL ∧ r ≠ .lvl .HIGH then .lvl .MEDIUM
  else r

/-- Severity update of the network-threat loop. -/
def upNet (r : RSev) (s : Sev) : RSev :=
  if s = .CRITICAL ∧ r ≠ .lvl .CRITICAL then .lvl .CRITICAL
  else if s = .HIGH ∧ r ≠ .lvl .CRITICAL then .lvl .HIGH
  else r

/-- Severity update of the browser-instance loop. -/
def upBrowser (r : RSev) (s : Sev) : RSev :=
  if s = .HIGH ∧ r ≠ .lvl .CRITICAL then .lvl .HIGH
  else if r ≠ .lvl .CRITICAL ∧ r ≠ .lvl .HIGH then .lvl .MEDIUM
  else r

/-- `results.unauthorized.forEach(app => ...)` body. -/
def addUnauth (r : Report) (app : UnauthorizedEntry) : Report :=
  let v : Violation :=
    ⟨"UNAUTHORIZED_APPLICATION", app.severity,
      app.name ++ " (PID: " ++ toString app.pid ++ ") - " ++ app.description,
      app.cmd, app.confidence, some app.category, app.aiDetected⟩
  { r with
    violations := r.violations ++ [v]
    summary := bumpSummary r.summary app.severity
    severity := upUnauth r.severity app.severity }

/-- `results.suspicious.forEach(activity => ...)` body. -/
def addSusp (r : Report) (a : SuspiciousEntry) : Report :=
  let v : Violation :=
    ⟨"SUSPICIOUS_ACTIVITY", a.severity, a.reason, a.cmd, a.confidence, none, a.aiDetected⟩
  { r with
    violations := r.violations ++ [v]
    summary := bumpSummary r.summary a.severity
    severity := upSusp r.severity a.severity }

/-- `results.networkThreats.suspiciousConnections.forEach(threat => ...)` body. -/
def addNet (r : Report) (t : DomainHit) : Report :=
  let v : Violation :=
    ⟨"SUSPICIOUS_NETWORK_ACTIVITY", t.severity,
      "Connection to suspicious " ++ t.category ++ " domain: " ++ t.domain,
      "Network connection detected", 17/20, some t.category, false⟩
  { r with
    violations := r.violations ++ [v]
    summary := bumpSummary r.summary t.severity
    severity := upNet r.severity t.severity }

/-- `results.browserInstances.forEach(browser => ...)` body. -/
def addBrowser (r : Report) (b : BrowserInstance) : Report :=
  let v : Violation :=
    ⟨"SUSPICIOUS_BROWSER_ACTIVITY", b.threat_level,
      "Multiple " ++ b.browser ++ " instances detected (" ++ toString b.count ++ ")",
      "Instance count: " ++ toString b.count, 7/10, none, false⟩
  { r with
    violations := r.violations ++ [v]
    summary := bumpSummary r.summary b.threat_level
    severity := upBrowser r.severity b.threat_level }

/-- Behavioral-anomaly loop body: pushes a violation and tallies the summary
but performs no severity update. -/
def addBehaviorAnomaly (r : Report) (a : Anomaly) : Report :=
  let v : Violation :=
    ⟨a.type, a.severity, a.details, "Behavioral pattern analysis", a.confidence,
      some "behavior", true⟩
  { r with
    violations := r.violations ++ [v]
    summary := bumpSummary r.summary a.severity }

/-- Biometric-anomaly loop body: pushes a violation and tallies the summary
but performs no severity update. -/
def addBiometricAnomaly (r : Report) (a : Anomaly) : Report :=
  let v : Violation :=
    ⟨a.type, a.severity, a.details, "Biometric analysis", a.confidence,
      some "biometric", true⟩
  { r with
    violations := r.violations ++ [v]
    summary := bumpSummary r.summary a.severity }

/-- `generateViolationReport(results, behaviorData, biometricData, sessionId)`
(the session-history append is an external side effect on the registry and is
not part of the returned report). -/
def generateViolationReport (results : Results) (behaviorData : Option BehaviorData)
    (biometricData : Option BiometricData) (sessionId : Option String) : Report :=
  let r0 : Report :=
    ⟨.CLEAN, [], ⟨0, 0, 0, 0, 0⟩, ⟨0, 0, none, none, []⟩, sessionId⟩
  let r1 := results.unauthorized.foldl addUnauth r0
  let r2 := results.suspicious.foldl addSusp r1
  let r3 := results.networkThreats.suspiciousConnections.foldl addNet r2
  let r4 := results.browserInstances.foldl addBrowser r3
  let behaviorAnalysis :=
    match behaviorData with
    | none => none
    | some _ => some (analyzeBehaviorMetrics behaviorData)
  let r5 :=
    match behaviorAnalysis with
    | none => r4
    | some a => a.anomalies.foldl addBehaviorAnomaly r4
  let biometricAnalysis :=
    match biometricData with
    | none => none
    | some _ => some (analyzeBiometricData biometricData)
  let r6 :=
    match biometricAnalysis with
    | none => r5
    | some a => a.anomalies.foldl addBiometricAnomaly r5
  let overallRiskScore : ℚ :=
    qOr results.aiAnalysis.riskScore 0 +
      qOr (match behaviorAnalysis with | some a => a.riskScore | none => 0) 0 +
      qOr (match biometricAnalysis with | some a => a.riskScore | none => 0) 0
  let confidence : ℚ :=
    min (49/50)
      (qOr results.aiAnalysis.confidence (1/2) +
        (r6.violations.filter (fun v => v.aiDetected)).length * (1/20))
  let recommendations : List String :=
    (if overallRiskScore > 100 then
      ["IMMEDIATE INTERVENTION REQUIRED", "Consider terminating interview session"]
     else if overallRiskScore > 50 then
      ["Increase monitoring frequency", "Enable additional security measures"]
     else []) ++
    (if r6.summary.criticalViolations > 0 then
      ["Critical violations detected - manual review required"]
     else [])
  { r6 with
    aiInsights :=
      ⟨overallRiskScore, confidence, behaviorAnalysis, biometricAnalysis, recommendations⟩ }

/-- The `status` field of the `/api/check-processes` response (the endpoint
passes `null` behavior and biometric data). -/
def checkProcessesStatus (isDev : Bool) (procs : List Proc)
    (netstatOut : Except String String) : String :=
  let results := analyzeProcesses isDev procs (checkNetworkConnections netstatOut)
  let report := generateViolationReport results none none none
  if report.severity = RSev.CLEAN then "clear" else "violations_detected"

/-! ### Legacy server (`src/unnamed/part_000`): process analysis -/

namespace Legacy

/-- Entry of the legacy `unauthorizedApps` catalog (no category field). -/
structure AppSig where
  name : String
  description : String
  severity : Sev
deriving DecidableEq, Repr

def unauthorizedApps : List AppSig := [
  ⟨"python.exe", "Python interpreter", .HIGH⟩,
  ⟨"python3.exe", "Python 3 interpreter", .HIGH⟩,
  ⟨"python", "Python (Linux/Mac)", .HIGH⟩,
  ⟨"python3", "Python 3 (Linux/Mac)", .HIGH⟩,
  ⟨"node.exe", "Node.js runtime", .HIGH⟩,
  ⟨"node", "Node.js (Linux/Mac)", .HIGH⟩,
  ⟨"npm.exe", "Node Package Manager", .MEDIUM⟩,
  ⟨"npm", "NPM (Linux/Mac)", .MEDIUM⟩,
  ⟨"pip.exe", "Python Package Installer", .MEDIUM⟩,
  ⟨"pip", "Python Package Installer", .MEDIUM⟩,
  ⟨"electron.exe", "Electron application (possible cheating app)", .CRITICAL⟩,
  ⟨"electron", "Electron (Linux/Mac)", .CRITICAL⟩,
  ⟨"code.exe", "Visual Studio Code", .HIGH⟩,
  ⟨"code", "VS Code (Linux/Mac)", .HIGH⟩,
  ⟨"notepad++.exe", "Notepad++", .MEDIUM⟩,
  ⟨"sublime_text.exe", "Sublime Text", .MEDIUM⟩,
  ⟨"atom.exe", "Atom Editor", .MEDIUM⟩,
  ⟨"webstorm.exe", "WebStorm IDE", .HIGH⟩,
  ⟨"pycharm.exe", "PyCharm IDE", .HIGH⟩,
  ⟨"intellij.exe", "IntelliJ IDEA", .HIGH⟩,
  ⟨"eclipse.exe", "Eclipse IDE", .HIGH⟩,
  ⟨"cmd.exe", "Command Prompt", .MEDIUM⟩,
  ⟨"powershell.exe", "PowerShell", .MEDIUM⟩,
  ⟨"bash", "Bash Shell", .MEDIUM⟩,
  ⟨"zsh", "Zsh Shell", .MEDIUM⟩,
  ⟨"terminal", "Terminal", .MEDIUM⟩,
  ⟨"iterm2", "iTerm2", .MEDIUM⟩,
  ⟨"teamviewer.exe", "TeamViewer", .CRITICAL⟩,
  ⟨"anydesk.exe", "AnyDesk", .CRITICAL⟩,
  ⟨"chrome_remote_desktop", "Chrome Remote Desktop", .CRITICAL⟩,
  ⟨"vnc", "VNC Viewer", .CRITICAL⟩,
  ⟨"discord.exe", "Discord", .HIGH⟩,
  ⟨"slack.exe", "Slack", .HIGH⟩,
  ⟨"skype.exe", "Skype", .HIGH⟩,
  ⟨"telegram.exe", "Telegram", .HIGH⟩,
  ⟨"whatsapp.exe", "WhatsApp", .HIGH⟩,
  ⟨"obs64.exe", "OBS Studio", .HIGH⟩,
  ⟨"obs32.exe", "OBS Studio (32-bit)", .HIGH⟩,
  ⟨"bandicam.exe", "Bandicam", .HIGH⟩,
  ⟨"camtasia.exe", "Camtasia", .HIGH⟩,
  ⟨"vmware.exe", "VMware", .CRITICAL⟩,
  ⟨"virtualbox.exe", "VirtualBox", .CRITICAL⟩,
  ⟨"vmplayer.exe", "VMware Player", .CRITICAL⟩,
  ⟨"chrome.exe", "Google Chrome", .LOW⟩,
  ⟨"firefox.exe", "Mozilla Firefox", .LOW⟩,
  ⟨"msedge.exe", "Microsoft Edge", .LOW⟩,
  ⟨"safari", "Safari", .LOW⟩]

/-- The legacy `suspiciousPatterns` (bare substrings, no severity metadata). -/
def suspiciousPatterns : List String :=
  ["main.js", "cheating", "screenshot", "keylogger", "automation", "selenium",
   "puppeteer", "playwright", "cypress", "remote", "proxy", "tunnel", "ngrok",
   "localhost:", "python -c", "node -e", "eval(", "exec(", "system(", "shell_exec"]

structure UnauthorizedEntry where
  name : String
  pid : Nat
  description : String
  cmd : String
  severity : Sev
  ppid : Nat
  cpu : ℚ
  memory : ℚ
  startTime : String
deriving DecidableEq, Repr

structure SuspiciousEntry where
  name : String
  pid : Nat
  cmd : String
  reason : String
deriving DecidableEq, Repr

structure BrowserInstance where
  browser : String
  count : Nat
  threat_level : Sev
deriving DecidableEq, Repr

structure Results where
  unauthorized : List UnauthorizedEntry
  suspicious : List SuspiciousEntry
  browserInstances : List BrowserInstance
  networkThreats : List String
  processCount : Nat
deriving DecidableEq, Repr

def catalogMatch (p : Proc) : Option AppSig :=
  match p.name with
  | none => none
  | some n => unauthorizedApps.find? (fun a => (jsToLower n) == (jsToLower a.name))

def cmdHasPattern (cmd : String) : Bool :=
  suspiciousPatterns.any (fun pt => strIncludes (jsToLower cmd) (jsToLower pt))

def isBrowserName (n : String) : Bool :=
  strIncludes (jsToLower n) "chrome" || strIncludes (jsToLower n) "firefox" ||
    strIncludes (jsToLower n) "safari" || strIncludes (jsToLower n) "edge"

def mkUnauthEntry (p : Proc) (app : AppSig) : UnauthorizedEntry :=
  let base : String × Sev := (app.description, app.severity)
  let adj : String × Sev :=
    if (match p.name with
        | some n => strIncludes (jsToLower n) "electron"
        | none => false) then
      match p.cmd with
      | some c =>
        if strIncludes c "main.js" then
          ("CRITICAL: Cheating application detected (main.js)", Sev.CRITICAL)
        else if strIncludes c ".asar" then
          ("Electron app with packed resources (suspicious)", Sev.HIGH)
        else base
      | none => base
    else base
  let fin : String × Sev :=
    if (match p.cmd with
        | some c => cmdHasPattern c
        | none => false) then
      (adj.1 ++ " [SUSPICIOUS COMMAND LINE DETECTED]", Sev.CRITICAL)
    else adj
  { name := p.name.getD "unknown"
    pid := p.pid.getD 0
    description := fin.1
    cmd := p.cmd.getD "N/A"
    severity := fin.2
    ppid := p.ppid.getD 0
    cpu := p.cpu.getD 0
    memory := p.memory.getD 0
    startTime := p.starttime.getD "unknown" }

structure ScanState where
  unauthorized : List UnauthorizedEntry
  suspicious : List SuspiciousEntry
  browserCounts : List (String × Nat)
deriving DecidableEq, Repr

/-- One iteration of the legacy `processes.forEach` body (note the legacy
suspicious-command check does not exclude catalog-matched processes). -/
def scanStep (st : ScanState) (p : Proc) : ScanState :=
  let st1 :=
    match catalogMatch p with
    | none => st
    | some app => { st with unauthorized := st.unauthorized ++ [mkUnauthEntry p app] }
  let st2 :=
    match p.name with
    | some n =>
      if isBrowserName n then
        { st1 with browserCounts := bumpCount st1.browserCounts (jsToLower n) }
      else st1
    | none => st1
  match p.cmd with
  | none => st2
  | some c =>
    if cmdHasPattern c then
      { st2 with
        suspicious := st2.suspicious ++
          [⟨p.name.getD "unknown", p.pid.getD 0, c,
            "Suspicious command line pattern detected"⟩] }
    else st2

/-- Legacy `analyzeProcesses` (network threats passed in as the list of matched
domains its own `checkNetworkConnections` returns). -/
def analyzeProcesses (procs : List Proc) (networkThreats : List String) : Results :=
  let st := procs.foldl scanStep ⟨[], [], []⟩
  let browserInstances := st.browserCounts.filterMap (fun bc =>
    if bc.2 > 3 then
      some ⟨bc.1, bc.2, if bc.2 > 5 then Sev.HIGH else Sev.MEDIUM⟩
    else none)
  { unauthorized := st.unauthorized
    suspicious := st.suspicious
    browserInstances := browserInstances
    networkThreats := networkThreats
    processCount := procs.length }

/-- Legacy per-browser instance counts (projection of the scan loop). -/
def browserCountsOf (procs : List Proc) : List (String × Nat) :=
  procs.foldl
    (fun counts p =>
      match p.name with
      | some n => if isBrowserName n then bumpCount counts (jsToLower n) else counts
      | none => counts)
    []

end Legacy

/-! ### Specification-side definitions

Declarative restatements used on the right-hand side of the theorems; each is
compared against the corresponding transcription of the source above. -/

/-- Per-browser instance counts of the extended scan loop (projection of the
`forEach` body: the development allow-list skip applies, then the browser-name
test and counter bump). -/
def browserCountsOf (isDev : Bool) (procs : List Proc) : List (String × Nat) :=
  procs.foldl
    (fun counts p =>
      if devSkip isDev p then counts
      else
        match p.name with
        | some n => if isBrowserName n then bumpCount counts (jsToLower n) else counts
        | none => counts)
    []

/-- The unauthorized finding the classifier owes a process observation:
`none` when the observation is allow-listed or matches no catalog signature,
otherwise exactly one finding. -/
def unauthOf (isDev : Bool) (p : Proc) : Option UnauthorizedEntry :=
  if devSkip isDev p then none
  else (catalogMatch isDev p).map (mkUnauthEntry p)

/-- The process counts toward the category counter `cat` of the weighted risk
score: not allow-listed, and the first matching catalog signature has that
category. -/
def countsAsCat (isDev : Bool) (cat : String) (p : Proc) : Bool :=
  !devSkip isDev p &&
    (match catalogMatch isDev p with
     | some a => a.category == cat
     | none => false)

/-- The process counts toward the generic `suspicious` counter: not
allow-listed, no catalog match, and its command line matches some pattern. -/
def countsAsSuspicious (isDev : Bool) (p : Proc) : Bool :=
  !devSkip isDev p && (catalogMatch isDev p).isNone &&
    (match p.cmd with
     | some c => (cmdPatternMatch c).isSome
     | none => false)

/-- Report-severity contribution of an unauthorized-application finding:
its own severity, except that LOW contributes nothing. -/
def unauthContrib (s : Sev) : RSev :=
  match s with
  | .LOW => .CLEAN
  | s => .lvl s

/-- Report-severity contribution of a suspicious-activity finding: HIGH when
its severity is HIGH, otherwise MEDIUM (even for CRITICAL entries). -/
def suspContrib (s : Sev) : RSev :=
  if s = .HIGH then .lvl .HIGH else .lvl .MEDIUM

/-- Report-severity contribution of a network finding: only CRITICAL and HIGH
count; MEDIUM and LOW contribute nothing. -/
def netContrib (s : Sev) : RSev :=
  match s with
  | .CRITICAL => .lvl .CRITICAL
  | .HIGH => .lvl .HIGH
  | _ => .CLEAN

/-- Report-severity contribution of a browser finding: HIGH when its level is
HIGH, otherwise MEDIUM. -/
def browserContrib (s : Sev) : RSev :=
  if s = .HIGH then .lvl .HIGH else .lvl .MEDIUM

/-- The report severity the aggregator actually computes: the maximum of the
contributions of the classifier, suspicious-activity, network and browser
findings — behavioral and biometric anomalies contribute nothing — with
`CLEAN` for no contributions. -/
def specSeverity (results : Results) : RSev :=
  ((results.unauthorized.map (fun a => unauthContrib a.severity)) ++
    (results.suspicious.map (fun a => suspContrib a.severity)) ++
    (results.networkThreats.suspiciousConnections.map (fun t => netContrib t.severity)) ++
    (results.browserInstances.map (fun b => browserContrib b.threat_level))).foldl rmax .CLEAN

/-! ## Helper lemmas -/

theorem qOr_zero (a : ℚ) : qOr a 0 = a := by
  unfold qOr
  split <;> simp_all

theorem upUnauth_eq_rmax (r : RSev) (s : Sev) : upUnauth r s = rmax r (unauthContrib s) := by
  cases r with
  | CLEAN => cases s <;> rfl
  | lvl t => cases t <;> cases s <;> rfl

theorem upSusp_eq_rmax (r : RSev) (s : Sev) : upSusp r s = rmax r (suspContrib s) := by
  cases r with
  | CLEAN => cases s <;> rfl
  | lvl t => cases t <;> cases s <;> rfl

theorem upNet_eq_rmax (r : RSev) (s : Sev) : upNet r s = rmax r (netContrib s) := by
  cases r with
  | CLEAN => cases s <;> rfl
  | lvl t => cases t <;> cases s <;> rfl

theorem upBrowser_eq_rmax (r : RSev) (s : Sev) : upBrowser r s = rmax r (browserContrib s) := by
  cases r with
  | CLEAN => cases s <;> rfl
  | lvl t => cases t <;> cases s <;> rfl

theorem foldl_severity_unauth :
    ∀ (l : List UnauthorizedEntry) (r : Report),
      (l.foldl addUnauth r).severity
        = (l.map (fun a => unauthContrib a.severity)).foldl rmax r.severity := by
  intro l
  induction l with
  | nil => intro r; rfl
  | cons a t ih =>
    intro r
    simp only [List.foldl_cons, List.map_cons, ih]
    have h : (addUnauth r a).severity = rmax r.severity (unauthContrib a.severity) :=
      upUnauth_eq_rmax r.severity a.severity
    rw [h]

theorem foldl_severity_susp :
    ∀ (l : List SuspiciousEntry) (r : Report),
      (l.foldl addSusp r).severity
        = (l.map (fun a => suspContrib a.severity)).foldl rmax r.severity := by
  intro l
  induction l with
  | nil => intro r; rfl
  | cons a t ih =>
    intro r
    simp only [List.foldl_cons, List.map_cons, ih]
    have h : (addSusp r a).severity = rmax r.severity (suspContrib a.severity) :=
      upSusp_eq_rmax r.severity a.severity
    rw [h]

theorem foldl_severity_net :
    ∀ (l : List DomainHit) (r : Report),
      (l.foldl addNet r).severity
        = (l.map (fun t => netContrib t.severity)).foldl rmax r.severity := by
  intro l
  induction l with
  | nil => intro r; rfl
  | cons a t ih =>
    intro r
    simp only [List.foldl_cons, List.map_cons, ih]
    have h : (addNet r a).severity = rmax r.severity (netContrib a.severity) :=
      upNet_eq_rmax r.severity a.severity
    rw [h]

theorem foldl_severity_browser :
    ∀ (l : List BrowserInstance) (r : Report),
      (l.foldl addBrowser r).severity
        = (l.map (fun b => browserContrib b.threat_level)).foldl rmax r.severity := by
  intro l
  induction l with
  | nil => intro r; rfl
  | cons a t ih =>
    intro r
    simp only [List.foldl_cons, List.map_cons, ih]
    have h : (addBrowser r a).severity = rmax r.severity (browserContrib a.threat_level) :=
      upBrowser_eq_rmax r.severity a.threat_level
    rw [h]

theorem foldl_severity_behav :
    ∀ (l : List Anomaly) (r : Report), (l.foldl addBehaviorAnomaly r).severity = r.severity := by
  intro l
  induction l with
  | nil => intro r; rfl
  | cons a t ih => intro r; simp only [List.foldl_cons, ih]; rfl

theorem foldl_severity_biom :
    ∀ (l : List Anomaly) (r : Report), (l.foldl addBiometricAnomaly r).severity = r.severity := by
  intro l
  induction l with
  | nil => intro r; rfl
  | cons a t ih => intro r; simp only [List.foldl_cons, ih]; rfl

/-- The aggregator's report severity is exactly `specSeverity`. -/
theorem genReport_severity (results : Results) (b : Option BehaviorData)
    (bio : Option BiometricData) (sid : Option String) :
    (generateViolationReport results b bio sid).severity = specSeverity results := by
  unfold generateViolationReport specSeverity
  cases b <;> cases bio <;>
    simp only [foldl_severity_behav, foldl_severity_biom, foldl_severity_unauth,
      foldl_severity_susp, foldl_severity_net, foldl_severity_browser, List.foldl_append]

theorem scanStep_unauth (isDev : Bool) (st : ScanState) (p : Proc) :
    (scanStep isDev st p).unauthorized = st.unauthorized ++ (unauthOf isDev p).toList := by
  unfold scanStep unauthOf
  by_cases h : devSkip isDev p
  · simp [h]
  · simp only [h, Bool.false_eq_true, if_false]
    cases hm : catalogMatch isDev p <;> simp only [hm, Option.map_some, Option.map_none] <;>
      (repeat' split) <;> simp

theorem foldl_append_filterMap {α β : Type} (F : α → Option β) :
    ∀ (l : List α) (init : List β),
      l.foldl (fun acc a => acc ++ (F a).toList) init = init ++ l.filterMap F := by
  intro l
  induction l with
  | nil => intro init; simp
  | cons a t ih =>
    intro init
    simp only [List.foldl_cons, ih, List.filterMap_cons]
    cases F a <;> simp

theorem foldl_scan_unauth (isDev : Bool) :
    ∀ (procs : List Proc) (st : ScanState),
      (procs.foldl (scanStep isDev) st).unauthorized
        = st.unauthorized ++ procs.filterMap (unauthOf isDev) := by
  intro procs
  induction procs with
  | nil => intro st; simp
  | cons p t ih =>
    intro st
    simp only [List.foldl_cons, ih, scanStep_unauth, List.filterMap_cons]
    cases unauthOf isDev p <;> simp

theorem unauthOf_isSome (isDev : Bool) (p : Proc) :
    (unauthOf isDev p).isSome = (!devSkip isDev p && (catalogMatch isDev p).isSome) := by
  unfold unauthOf
  by_cases h : devSkip isDev p <;> cases hm : catalogMatch isDev p <;> simp [h, hm]

theorem length_filterMap_eq_filter {α β : Type} (F : α → Option β) (pred : α → Bool)
    (h : ∀ a, (F a).isSome = pred a) :
    ∀ l : List α, (l.filterMap F).length = (l.filter pred).length := by
  intro l
  induction l with
  | nil => rfl
  | cons a t ih =>
    have ha := h a
    cases hf : F a <;> simp [hf] at ha <;>
      simp [List.filterMap_cons, List.filter_cons, hf, ← ha, ih]

theorem scanStep_browserCounts (isDev : Bool) (st : ScanState) (p : Proc) :
    (scanStep isDev st p).browserCounts =
      (if devSkip isDev p then st.browserCounts
       else
         match p.name with
         | some n =>
           if isBrowserName n then bumpCount st.browserCounts (jsToLower n) else st.browserCounts
         | none => st.browserCounts) := by
  unfold scanStep
  by_cases h : devSkip isDev p
  · simp [h]
  · simp only [h, Bool.false_eq_true, if_false]
    cases hm : catalogMatch isDev p <;> simp only [hm] <;>
      (repeat' split) <;> simp_all

theorem foldl_scan_browserCounts (isDev : Bool) :
    ∀ (procs : List Proc) (st : ScanState),
      (procs.foldl (scanStep isDev) st).browserCounts
        = procs.foldl
            (fun counts p =>
              if devSkip isDev p then counts
              else
                match p.name with
                | some n => if isBrowserName n then bumpCount counts (jsToLower n) else counts
                | none => counts)
            st.browserCounts := by
  intro procs
  induction procs with
  | nil => intro st; rfl
  | cons p t ih =>
    intro st
    simp only [List.foldl_cons, ih, scanStep_browserCounts]

theorem bumpPattern_development (pc : PatternCounts) (cat : String) :
    (bumpPattern pc cat).development
      = pc.development + (if cat = "development" then 1 else 0) := by
  unfold bumpPattern
  split_ifs <;> simp_all

theorem bumpPattern_communication (pc : PatternCounts) (cat : String) :
    (bumpPattern pc cat).communication
      = pc.communication + (if cat = "communication" then 1 else 0) := by
  unfold bumpPattern
  split_ifs <;> simp_all

theorem bumpPattern_cheating (pc : PatternCounts) (cat : String) :
    (bumpPattern pc cat).cheating
      = pc.cheating + (if cat = "cheating" then 1 else 0) := by
  unfold bumpPattern
  split_ifs <;> simp_all

theorem bumpPattern_suspicious (pc : PatternCounts) (cat : String) :
    (bumpPattern pc cat).suspicious
      = pc.suspicious + (if cat = "suspicious" then 1 else 0) := by
  unfold bumpPattern
  split_ifs <;> simp_all

/-- No catalog signature carries the (counter-only) category `suspicious`. -/
theorem catalog_category_ne_suspicious (isDev : Bool) :
    ∀ a ∈ unauthorizedApps isDev, a.category ≠ "suspicious" := by
  cases isDev <;> decide

theorem catalogMatch_mem (isDev : Bool) (p : Proc) (app : ProcSig)
    (h : catalogMatch isDev p = some app) : app ∈ unauthorizedApps isDev := by
  unfold catalogMatch at h
  cases hn : p.name with
  | none => rw [hn] at h; exact absurd h (by simp)
  | some n =>
    rw [hn] at h
    exact List.mem_of_find?_eq_some h

theorem scanStep_patterns_development (isDev : Bool) (st : ScanState) (p : Proc) :
    (scanStep isDev st p).patterns.development
      = st.patterns.development + (if countsAsCat isDev "development" p then 1 else 0) := by
  unfold scanStep countsAsCat
  by_cases h : devSkip isDev p
  · simp [h]
  · cases hm : catalogMatch isDev p <;>
      simp only [h, Bool.false_eq_true, if_false, Bool.not_false, Bool.true_and, hm,
        beq_iff_eq] <;>
      (repeat' split) <;> simp_all [bumpPattern_development]

theorem scanStep_patterns_communication (isDev : Bool) (st : ScanState) (p : Proc) :
    (scanStep isDev st p).patterns.communication
      = st.patterns.communication + (if countsAsCat isDev "communication" p then 1 else 0) := by
  unfold scanStep countsAsCat
  by_cases h : devSkip isDev p
  · simp [h]
  · cases hm : catalogMatch isDev p <;>
      simp only [h, Bool.false_eq_true, if_false, Bool.not_false, Bool.true_and, hm,
        beq_iff_eq] <;>
      (repeat' split) <;> simp_all [bumpPattern_communication]

theorem scanStep_patterns_cheating (isDev : Bool) (st : ScanState) (p : Proc) :
    (scanStep isDev st p).patterns.cheating
      = st.patterns.cheating + (if countsAsCat isDev "cheating" p then 1 else 0) := by
  unfold scanStep countsAsCat
  by_cases h : devSkip isDev p
  · simp [h]
  · cases hm : catalogMatch isDev p <;>
      simp only [h, Bool.false_eq_true, if_false, Bool.not_false, Bool.true_and, hm,
        beq_iff_eq] <;>
      (repeat' split) <;> simp_all [bumpPattern_cheating]

theorem scanStep_patterns_suspicious (isDev : Bool) (st : ScanState) (p : Proc) :
    (scanStep isDev st p).patterns.suspicious
      = st.patterns.suspicious + (if countsAsSuspicious isDev p then 1 else 0) := by
  unfold scanStep countsAsSuspicious
  by_cases h : devSkip isDev p
  · simp [h]
  · cases hm : catalogMatch isDev p with
    | none =>
      simp only [h, Bool.false_eq_true, if_false, Bool.not_false, Bool.true_and, hm,
        Option.isNone_none]
      (repeat' split) <;> simp_all
    | some app =>
      have hne : app.category ≠ "suspicious" :=
        catalog_category_ne_suspicious isDev app (catalogMatch_mem isDev p app hm)
      simp only [h, Bool.false_eq_true, if_false, Bool.not_false, Bool.true_and, hm,
        Option.isNone_some, Bool.false_and]
      (repeat' split) <;> simp_all [bumpPattern_suspicious]

/-- Fold a per-step counter equation through the scan loop. -/
theorem foldl_scan_counter (isDev : Bool) (f : ScanState → Nat) (pred : Proc → Bool)
    (hstep : ∀ st p, f (scanStep isDev st p) = f st + (if pred p then 1 else 0)) :
    ∀ (procs : List Proc) (st : ScanState),
      f (procs.foldl (scanStep isDev) st) = f st + (procs.filter pred).length := by
  intro procs
  induction procs with
  | nil => intro st; simp
  | cons p t ih =>
    intro st
    simp only [List.foldl_cons, ih, hstep, List.filter_cons]
    by_cases hp : pred p
    · simp [hp]
      omega
    · simp [hp]

theorem analyzeProcesses_networkThreats (isDev : Bool) (procs : List Proc) (net : NetworkCheck) :
    (analyzeProcesses isDev procs net).networkThreats = net := rfl

theorem analyzeProcesses_riskScore (isDev : Bool) (procs : List Proc) (net : NetworkCheck) :
    (analyzeProcesses isDev procs net).aiAnalysis.riskScore
      = (((procs.filter (countsAsCat isDev "cheating")).length * 40
          + (procs.filter (countsAsCat isDev "development")).length * 15
          + (procs.filter (countsAsCat isDev "communication")).length * 10
          + (procs.filter (countsAsSuspicious isDev)).length * 25
          + net.suspiciousConnections.length * 20 : ℕ) : ℚ) := by
  have hch := foldl_scan_counter isDev (fun st => st.patterns.cheating)
    (countsAsCat isDev "cheating") (scanStep_patterns_cheating isDev) procs ⟨[], [], [], ⟨0, 0, 0, 0⟩⟩
  have hdev := foldl_scan_counter isDev (fun st => st.patterns.development)
    (countsAsCat isDev "development") (scanStep_patterns_development isDev) procs ⟨[], [], [], ⟨0, 0, 0, 0⟩⟩
  have hcom := foldl_scan_counter isDev (fun st => st.patterns.communication)
    (countsAsCat isDev "communication") (scanStep_patterns_communication isDev) procs ⟨[], [], [], ⟨0, 0, 0, 0⟩⟩
  have hsus := foldl_scan_counter isDev (fun st => st.patterns.suspicious)
    (countsAsSuspicious isDev) (scanStep_patterns_suspicious isDev) procs ⟨[], [], [], ⟨0, 0, 0, 0⟩⟩
  simp only [analyzeProcesses] at *
  rw [hch, hdev, hcom, hsus]
  push_cast
  ring

theorem genReport_overallRiskScore (results : Results) (b : Option BehaviorData)
    (bio : Option BiometricData) (sid : Option String) :
    (generateViolationReport results b bio sid).aiInsights.overallRiskScore
      = results.aiAnalysis.riskScore + (analyzeBehaviorMetrics b).riskScore
        + (analyzeBiometricData bio).riskScore := by
  cases b <;> cases bio <;>
    simp [generateViolationReport, qOr_zero, analyzeBehaviorMetrics, analyzeBiometricData]

theorem countsAsCat_false_of_ne (isDev : Bool) (p : Proc) (app : ProcSig) (cat : String)
    (hm : catalogMatch isDev p = some app) (hne : app.category ≠ cat) :
    countsAsCat isDev cat p = false := by
  unfold countsAsCat
  rw [hm]
  have hb : (app.category == cat) = false := beq_eq_false_iff_ne.mpr hne
  simp [hb]

theorem countsAsSuspicious_false_of_match (isDev : Bool) (p : Proc) (app : ProcSig)
    (hm : catalogMatch isDev p = some app) : countsAsSuspicious isDev p = false := by
  unfold countsAsSuspicious
  rw [hm]
  simp

theorem legacy_scanStep_browserCounts (st : Legacy.ScanState) (p : Proc) :
    (Legacy.scanStep st p).browserCounts =
      (match p.name with
       | some n =>
         if Legacy.isBrowserName n then bumpCount st.browserCounts (jsToLower n)
         else st.browserCounts
       | none => st.browserCounts) := by
  unfold Legacy.scanStep
  cases hm : Legacy.catalogMatch p <;> simp only [hm] <;>
    (repeat' split) <;> simp_all

theorem legacy_foldl_scan_browserCounts :
    ∀ (procs : List Proc) (st : Legacy.ScanState),
      (procs.foldl Legacy.scanStep st).browserCounts
        = procs.foldl
            (fun counts p =>
              match p.name with
              | some n =>
                if Legacy.isBrowserName n then bumpCount counts (jsToLower n) else counts
              | none => counts)
            st.browserCounts := by
  intro procs
  induction procs with
  | nil => intro st; rfl
  | cons p t ih =>
    intro st
    simp only [List.foldl_cons, ih, legacy_scanStep_browserCounts]

theorem connMatchesDomain_eq (conn dom : String) :
    connMatchesDomain conn dom
      = (hasIPv4 conn && strIncludes (jsToLower conn) (jsToLower dom)) := by
  unfold connMatchesDomain
  by_cases h : hasIPv4 conn <;> simp [h]

theorem foldl_collect {α β : Type} (P : α → Bool) (g : α → β) :
    ∀ (l : List α) (acc : List β) (n : Nat),
      l.foldl (fun ac a => if P a then (ac.1 ++ [g a], ac.2 + 1) else ac)
          ((acc, n) : List β × Nat)
        = (acc ++ (l.filter P).map g, n + (l.filter P).length) := by
  intro l
  induction l with
  | nil => intro acc n; simp
  | cons a t ih =>
    intro acc n
    simp only [List.foldl_cons, List.filter_cons]
    by_cases hp : P a
    · simp only [hp, if_true, ih, List.map_cons, List.length_cons]
      refine Prod.ext ?_ ?_ <;> simp
      omega
    · simp [hp, ih]

theorem scanDomains_eq (conns : List String) :
    scanDomains conns
      = ((suspiciousDomains.filter
            (fun d => conns.any (fun conn => connMatchesDomain conn d.domain))).map
          (fun d => (⟨d.domain, d.category, d.severity⟩ : DomainHit)),
         (suspiciousDomains.filter
            (fun d => conns.any (fun conn => connMatchesDomain conn d.domain))).length) := by
  have h := foldl_collect
    (fun d => conns.any (fun conn => connMatchesDomain conn d.domain))
    (fun d => (⟨d.domain, d.category, d.severity⟩ : DomainHit)) suspiciousDomains [] 0
  simpa [scanDomains] using h

/-! ## Claim theorems -/

/-- C1, counterexample: feeding the aggregator an empty scan result and a
biometric reading with no face detected yields a report whose violations list
contains exactly one HIGH finding while the report severity stays CLEAN, so
the report severity is not the maximum severity among the violations. -/
theorem C1_counterexample :
    (generateViolationReport (analyzeProcesses false [] ⟨[], ⟨0, 0, 0⟩, none⟩)
        none (some ⟨false, 100⟩) none).severity = RSev.CLEAN
    ∧ ((generateViolationReport (analyzeProcesses false [] ⟨[], ⟨0, 0, 0⟩, none⟩)
          none (some ⟨false, 100⟩) none).violations.map
        (fun v => RSev.lvl v.severity)).foldl rmax RSev.CLEAN = RSev.lvl Sev.HIGH
    ∧ (generateViolationReport (analyzeProcesses false [] ⟨[], ⟨0, 0, 0⟩, none⟩)
          none (some ⟨false, 100⟩) none).severity
        ≠ ((generateViolationReport (analyzeProcesses false [] ⟨[], ⟨0, 0, 0⟩, none⟩)
            none (some ⟨false, 100⟩) none).violations.map
          (fun v => RSev.lvl v.severity)).foldl rmax RSev.CLEAN := by
  refine ⟨by decide, by decide, by decide⟩

/-- C1, amended: for every combination of findings fed to the aggregator, the
report severity equals the maximum (CLEAN for no contributions) over: each
unauthorized finding's severity with LOW counting as CLEAN; HIGH for each
suspicious-activity finding of severity HIGH and MEDIUM for every other one;
each network finding's severity with MEDIUM and LOW counting as CLEAN; HIGH
for each browser finding of level HIGH and MEDIUM otherwise.  Behavioral and
biometric anomalies never contribute; an empty violations list yields CLEAN. -/
theorem C1_amended_severity (results : Results) (b : Option BehaviorData)
    (bio : Option BiometricData) (sid : Option String) :
    (generateViolationReport results b bio sid).severity = specSeverity results :=
  genReport_severity results b bio sid

/-- C2: at the claimed input `faceDetected = false, attentionScore = 40` the
biometric analyzer emits FACE_NOT_DETECTED (HIGH) and LOW_ATTENTION_SCORE
(MEDIUM, contribution 20) for a total risk score of 50 — never
CRITICAL_ATTENTION_SCORE — because the source tests `attentionScore < 70`
before `attentionScore < 50`, leaving the CRITICAL branch unreachable. -/
theorem C2_critical_attention_branch_dead :
    (analyzeBiometricData (some ⟨false, 40⟩)).riskScore = 50
    ∧ ((analyzeBiometricData (some ⟨false, 40⟩)).anomalies.map
        (fun a => (a.type, a.severity)))
      = [("FACE_NOT_DETECTED", Sev.HIGH), ("LOW_ATTENTION_SCORE", Sev.MEDIUM)]
    ∧ ((analyzeBiometricData (some ⟨false, 40⟩)).anomalies.filter
        (fun a => a.type == "CRITICAL_ATTENTION_SCORE")) = []
    ∧ (analyzeBiometricData (some ⟨false, 40⟩)).attentionLevel = "LOW" := by
  refine ⟨by norm_num [analyzeBiometricData], by decide, by decide, by decide⟩

/-- C8: both analyzers are total on absent input: `null` behavior metrics and
`null` biometric data each produce a zero risk score and an empty anomaly
list. -/
theorem C8_analyzers_total_on_null :
    analyzeBehaviorMetrics none = ⟨0, [], [], []⟩
    ∧ analyzeBiometricData none = ⟨0, [], "NORMAL"⟩ :=
  ⟨rfl, rfl⟩

/-- C3: for every process list, the classifier's unauthorized findings are
exactly one finding per observation whose name case-insensitively matches a
catalog signature, with the single exception of the development-mode
allow-list for the server's own process (`node`/`node.exe` with `server.mjs`
on the command line, skipped only when `isDev`). -/
theorem C3_classifier_exactly_one_finding (isDev : Bool) (procs : List Proc)
    (net : NetworkCheck) :
    (analyzeProcesses isDev procs net).unauthorized = procs.filterMap (unauthOf isDev)
    ∧ (analyzeProcesses isDev procs net).unauthorized.length
        = (procs.filter
            (fun p => !devSkip isDev p && (catalogMatch isDev p).isSome)).length := by
  have h1 : (analyzeProcesses isDev procs net).unauthorized
      = procs.filterMap (unauthOf isDev) := by
    show (procs.foldl (scanStep isDev) ⟨[], [], [], ⟨0, 0, 0, 0⟩⟩).unauthorized
        = procs.filterMap (unauthOf isDev)
    rw [foldl_scan_unauth]
    rfl
  refine ⟨h1, ?_⟩
  rw [h1]
  exact length_filterMap_eq_filter _ _ (unauthOf_isSome isDev) procs

/-- C4, counterexample: in the extended server with the production
configuration, four (or six) `chrome.exe` processes are counted but produce no
SUSPICIOUS_BROWSER_ACTIVITY finding, because the threshold is 8, not 3. -/
theorem C4_counterexample :
    browserCountsOf false
        (List.replicate 4 ⟨some "chrome.exe", some 10, none, none, none, none, none⟩)
      = [("chrome.exe", 4)]
    ∧ (analyzeProcesses false
        (List.replicate 4 ⟨some "chrome.exe", some 10, none, none, none, none, none⟩)
        ⟨[], ⟨0, 0, 0⟩, none⟩).browserInstances = []
    ∧ (analyzeProcesses false
        (List.replicate 6 ⟨some "chrome.exe", some 10, none, none, none, none, none⟩)
        ⟨[], ⟨0, 0, 0⟩, none⟩).browserInstances = [] := by
  refine ⟨by decide, by decide, by decide⟩

/-- C4, amended: the extended server emits one browser finding per browser
whose instance count exceeds `browserThreshold` (8 in production, 20 in
development), with severity HIGH only above `browserThreshold + 10` and MEDIUM
otherwise; the legacy server is the variant that uses the claimed thresholds,
emitting a finding above 3 instances with HIGH above 5. -/
theorem C4_amended_browser_thresholds (isDev : Bool) (procs : List Proc)
    (net : NetworkCheck) (netLegacy : List String) :
    (analyzeProcesses isDev procs net).browserInstances
      = (browserCountsOf isDev procs).filterMap (fun bc =>
          if bc.2 > (if isDev then 20 else 8) then
            some ⟨bc.1, bc.2,
              (if bc.2 > (if isDev then 20 else 8) + 10 then Sev.HIGH else Sev.MEDIUM),
              ⟨decide (bc.2 > (if isDev then 20 else 8) * 2),
                decide (bc.2 > (if isDev then 20 else 8) * 3)⟩⟩
          else none)
    ∧ (Legacy.analyzeProcesses procs netLegacy).browserInstances
      = (Legacy.browserCountsOf procs).filterMap (fun bc =>
          if bc.2 > 3 then
            some ⟨bc.1, bc.2, if bc.2 > 5 then Sev.HIGH else Sev.MEDIUM⟩
          else none) := by
  constructor
  · show ((procs.foldl (scanStep isDev) ⟨[], [], [], ⟨0, 0, 0, 0⟩⟩).browserCounts.filterMap _)
        = _
    rw [foldl_scan_browserCounts]
    rfl
  · show ((procs.foldl Legacy.scanStep ⟨[], [], []⟩).browserCounts.filterMap _) = _
    rw [legacy_foldl_scan_browserCounts]
    rfl

/-- C5, counterexample: a connection line that contains the catalog domain
`chatgpt.com` as a substring but no IPv4-style dotted quad is not reported:
the scanner only tests lines on which the IPv4 regex matched. -/
theorem C5_counterexample :
    strIncludes "tcp chatgpt.com ESTABLISHED" "chatgpt.com" = true
    ∧ (checkNetworkConnections
        (Except.ok "tcp chatgpt.com ESTABLISHED")).suspiciousConnections = [] := by
  refine ⟨by decide, by decide⟩

/-- C5, amended: the scanner returns exactly the catalog domains whose domain
string occurs case-insensitively as a substring of at least one nonempty
connection line that also contains an IPv4-style dotted quad, each tagged with
its category and severity, plus the total line count, the count of
non-loopback lines and the number of matched domains. -/
theorem C5_amended_network_scan (stdout : String) :
    (checkNetworkConnections (Except.ok stdout)).suspiciousConnections
      = (suspiciousDomains.filter (fun d =>
          ((jsSplitNewline stdout).filter (fun l => jsTrim l ≠ "")).any
            (fun conn => hasIPv4 conn && strIncludes (jsToLower conn) (jsToLower d.domain)))).map
          (fun d => ⟨d.domain, d.category, d.severity⟩)
    ∧ (checkNetworkConnections (Except.ok stdout)).connectionStats.total
      = ((jsSplitNewline stdout).filter (fun l => jsTrim l ≠ "")).length
    ∧ (checkNetworkConnections (Except.ok stdout)).connectionStats.external
      = (((jsSplitNewline stdout).filter (fun l => jsTrim l ≠ "")).filter (fun conn =>
          !strIncludes conn "127.0.0.1" && !strIncludes conn "::1" &&
            !strIncludes conn "localhost")).length
    ∧ (checkNetworkConnections (Except.ok stdout)).connectionStats.suspicious
      = (suspiciousDomains.filter (fun d =>
          ((jsSplitNewline stdout).filter (fun l => jsTrim l ≠ "")).any
            (fun conn => hasIPv4 conn && strIncludes (jsToLower conn) (jsToLower d.domain)))).length := by
  simp [checkNetworkConnections, scanDomains_eq, connMatchesDomain_eq]

/-- C6: when the connection-listing call fails, the scanner returns an empty
suspicious-connections list with the error recorded, and a check-processes
request in which only the network scan failed still reports status "clear"
when the process scan produced no findings. -/
theorem C6_network_failure_degrades (e : String) (isDev : Bool) (procs : List Proc) :
    (checkNetworkConnections (Except.error e)).suspiciousConnections = []
    ∧ (checkNetworkConnections (Except.error e)).error = some e
    ∧ ((analyzeProcesses isDev procs (checkNetworkConnections (Except.error e))).unauthorized
          = [] →
        (analyzeProcesses isDev procs (checkNetworkConnections (Except.error e))).suspicious
          = [] →
        (analyzeProcesses isDev procs (checkNetworkConnections (Except.error e))).browserInstances
          = [] →
        checkProcessesStatus isDev procs (Except.error e) = "clear") := by
  refine ⟨rfl, rfl, fun h1 h2 h3 => ?_⟩
  simp only [checkProcessesStatus, genReport_severity, specSeverity, h1, h2, h3,
    analyzeProcesses_networkThreats]
  simp [checkNetworkConnections]

/-- C6, witness: concrete run with a failing `netstat` call and an empty
process list. -/
theorem C6_witness :
    (checkNetworkConnections (Except.error "boom")).suspiciousConnections = []
    ∧ (checkNetworkConnections (Except.error "boom")).error = some "boom"
    ∧ checkProcessesStatus false [] (Except.error "boom") = "clear" := by
  have h := C6_network_failure_degrades "boom" false []
  exact ⟨h.1, h.2.1, h.2.2 rfl rfl rfl⟩

/-- C7: the overall risk score is the category-weighted process counts
(cheating 40, development 15, communication 10, generic suspicious 25) plus 20
per network threat plus the behavioral and biometric risk scores. -/
theorem C7_overall_risk_score (isDev : Bool) (procs : List Proc) (net : NetworkCheck)
    (b : Option BehaviorData) (bio : Option BiometricData) (sid : Option String) :
    (generateViolationReport (analyzeProcesses isDev procs net)
        b bio sid).aiInsights.overallRiskScore
      = (((procs.filter (countsAsCat isDev "cheating")).length * 40
          + (procs.filter (countsAsCat isDev "development")).length * 15
          + (procs.filter (countsAsCat isDev "communication")).length * 10
          + (procs.filter (countsAsSuspicious isDev)).length * 25
          + net.suspiciousConnections.length * 20 : ℕ) : ℚ)
        + (analyzeBehaviorMetrics b).riskScore + (analyzeBiometricData bio).riskScore := by
  rw [genReport_overallRiskScore, analyzeProcesses_riskScore]

/-- C9: whenever `tabSwitches > 5` the behavioral analyzer emits exactly one
EXCESSIVE_TAB_SWITCHING anomaly, HIGH above 10 tab switches and MEDIUM
otherwise, with confidence 0.9, and the risk score is `tabSwitches * 2` plus
the contributions of the three other rules. -/
theorem C9_tab_switching (b : BehaviorData) (h : b.tabSwitches > 5) :
    ((analyzeBehaviorMetrics (some b)).anomalies.filter
        (fun a => a.type == "EXCESSIVE_TAB_SWITCHING"))
      = [⟨"EXCESSIVE_TAB_SWITCHING",
          (if b.tabSwitches > 10 then Sev.HIGH else Sev.MEDIUM),
          toString b.tabSwitches ++ " tab switches detected", 9/10⟩]
    ∧ (analyzeBehaviorMetrics (some b)).riskScore
      = b.tabSwitches * 2
        + (if b.rightClicks > 3 then b.rightClicks * 3 else 0)
        + (if b.idleTime > 60000 then 10 else 0)
        + (if b.keystrokes / 5 > 100 then 15 else 0) := by
  have d1 : (("EXCESSIVE_RIGHT_CLICKS" : String) == "EXCESSIVE_TAB_SWITCHING") = false := by
    decide
  have d2 : (("EXTENDED_IDLE_TIME" : String) == "EXCESSIVE_TAB_SWITCHING") = false := by
    decide
  have d3 : (("UNUSUAL_KEYSTROKE_PATTERN" : String) == "EXCESSIVE_TAB_SWITCHING") = false := by
    decide
  unfold analyzeBehaviorMetrics
  by_cases h2 : b.rightClicks > 3 <;> by_cases h3 : b.idleTime > 60000 <;>
    by_cases h4 : b.keystrokes / 5 > 100 <;>
    refine ⟨by simp [h, h2, h3, h4, d1, d2, d3], by simp [h, h2, h3, h4]⟩

/-- C9, witness: `tabSwitches = 12` with the other metrics zero yields the
HIGH anomaly and risk-score contribution 24. -/
theorem C9_witness :
    (5 : ℚ) < 12
    ∧ (((analyzeBehaviorMetrics (some ⟨12, 0, 0, 0⟩)).anomalies.filter
          (fun a => a.type == "EXCESSIVE_TAB_SWITCHING"))
        = [⟨"EXCESSIVE_TAB_SWITCHING",
            (if (12 : ℚ) > 10 then Sev.HIGH else Sev.MEDIUM),
            toString (12 : ℚ) ++ " tab switches detected", 9/10⟩]
      ∧ (analyzeBehaviorMetrics (some ⟨12, 0, 0, 0⟩)).riskScore
        = (12 : ℚ) * 2
          + (if (0 : ℚ) > 3 then (0 : ℚ) * 3 else 0)
          + (if (0 : ℚ) > 60000 then 10 else 0)
          + (if (0 : ℚ) / 5 > 100 then 15 else 0)) :=
  ⟨by norm_num, C9_tab_switching ⟨12, 0, 0, 0⟩ (by norm_num)⟩

/-- C10: unauthorized findings whose catalog category is outside
development/communication/cheating (ai_cheating, remote_access, recording,
virtualization, browser, emulation, monitoring, system) contribute nothing to
the category-weighted risk score, regardless of severity: appending such a
process leaves the score unchanged. -/
theorem C10_offending_categories_weightless (isDev : Bool) (net : NetworkCheck)
    (procs : List Proc) (p : Proc) (app : ProcSig)
    (hm : catalogMatch isDev p = some app)
    (hmem : app.category ∈ (["ai_cheating", "remote_access", "recording", "virtualization",
        "browser", "emulation", "monitoring", "system"] : List String)) :
    (analyzeProcesses isDev (procs ++ [p]) net).aiAnalysis.riskScore
      = (analyzeProcesses isDev procs net).aiAnalysis.riskScore := by
  have hne : app.category ≠ "cheating" ∧ app.category ≠ "development"
      ∧ app.category ≠ "communication" := by
    simp only [List.mem_cons, List.not_mem_nil, or_false] at hmem
    rcases hmem with h | h | h | h | h | h | h | h <;> rw [h] <;>
      exact ⟨by decide, by decide, by decide⟩
  have e1 := countsAsCat_false_of_ne isDev p app "cheating" hm hne.1
  have e2 := countsAsCat_false_of_ne isDev p app "development" hm hne.2.1
  have e3 := countsAsCat_false_of_ne isDev p app "communication" hm hne.2.2
  have e4 := countsAsSuspicious_false_of_match isDev p app hm
  rw [analyzeProcesses_riskScore, analyzeProcesses_riskScore]
  simp [List.filter_append, List.filter_cons, e1, e2, e3, e4]

/-- C10, witness: appending a `chatgpt.exe` process (category ai_cheating,
severity CRITICAL) leaves the category-weighted risk score unchanged. -/
theorem C10_witness :
    catalogMatch false ⟨some "chatgpt.exe", some 1, none, none, none, none, none⟩
      = some ⟨"chatgpt.exe", "ChatGPT Desktop App", .CRITICAL, "ai_cheating"⟩
    ∧ ("ai_cheating" : String) ∈ (["ai_cheating", "remote_access", "recording",
        "virtualization", "browser", "emulation", "monitoring", "system"] : List String)
    ∧ (analyzeProcesses false
          ([] ++ [⟨some "chatgpt.exe", some 1, none, none, none, none, none⟩])
          ⟨[], ⟨0, 0, 0⟩, none⟩).aiAnalysis.riskScore
        = (analyzeProcesses false [] ⟨[], ⟨0, 0, 0⟩, none⟩).aiAnalysis.riskScore :=
  ⟨by decide, by decide,
    C10_offending_categories_weightless false ⟨[], ⟨0, 0, 0⟩, none⟩ []
      ⟨some "chatgpt.exe", some 1, none, none, none, none, none⟩
      ⟨"chatgpt.exe", "ChatGPT Desktop App", .CRITICAL, "ai_cheating"⟩
      (by decide) (by decide)⟩

end BharatHire
